import Mathlib

/-!
Shallow embedding of the browser client in `src/static/js/app.js`
(class `AITodoApp`).

Modelling conventions:
* The DOM state the script reads and writes (input box value, task-list
  container markup, stat counters, visibility of the loading indicator and
  of the AI preview box) is carried explicitly in `AppState`.
* Each `async` method becomes a pure function from the current state and
  the outcomes of the `fetch` calls it performs to the new state plus a
  trace of observable `Event`s (service calls issued, alerts shown,
  loading-indicator toggles), listed in program order.  A
  `FetchOutcome.error` covers both a transport failure and a
  `response.json()` parse failure, since both throw and land in the same
  `catch` block; it carries the thrown error's message.
* A JavaScript optional field is an `Option`; `none` models an absent or
  otherwise falsy value.  Where the code tests truthiness of a string
  field, the empty string is additionally tested for, matching JS
  truthiness.
* `confidence` is modelled as a rational number; the source manipulates a
  JS float, whose rounding behaviour plays no role in any claim here.
-/

namespace AITodo

/-- A task as held in `this.tasks`, mirroring the server JSON
(`id`, `title`, `date`, `time`, `original_text`, `completed`). -/
structure Task where
  id : Int
  title : String
  date : Option String
  time : Option String
  original_text : String
  completed : Bool
deriving Repr, DecidableEq

/-- The `parsed` object of a `/api/parse-task` response. -/
structure ParsedTask where
  title : String
  date : Option String
  time : Option String
  confidence : Option ℚ
deriving Repr, DecidableEq

/-- Body of a `/api/parse-task` response. -/
structure ParseData where
  success : Bool
  parsed : Option ParsedTask
  error : Option String
deriving Repr, DecidableEq

/-- Body of a `POST /api/tasks`, toggle or delete response. -/
structure SimpleResp where
  success : Bool
  error : Option String
deriving Repr, DecidableEq

/-- Body of a `GET /api/tasks` response; `none` models a response object
whose `tasks` field is absent or falsy (any array, even empty, is truthy
in JS, so a present array is always `some`). -/
structure TasksData where
  tasks : Option (List Task)
deriving Repr, DecidableEq

/-- Outcome of one `fetch` + `response.json()` pair: `error` when either
throws (transport failure or malformed JSON body), carrying the thrown
error's message; `ok` with the parsed body otherwise. -/
inductive FetchOutcome (α : Type) where
  | error (message : String) : FetchOutcome α
  | ok (data : α) : FetchOutcome α
deriving Repr, DecidableEq

/-- Observable effects of one operation, in program order. -/
inductive Event where
  | parseCall (text : String)
  | createCall (title : String) (date : Option String) (time : Option String)
      (original_text : String)
  | getTasksCall
  | toggleCall (id : Int)
  | deleteCall (id : Int)
  | setLoading (b : Bool)
  | alert (message : String) (severity : String)
deriving Repr, DecidableEq

/-- The DOM/JS state the script manipulates. -/
structure AppState where
  tasks : List Task
  inputValue : String
  containerHTML : String
  emptyStateShown : Bool
  hasEmptyStateElem : Bool
  statTaskCount : Nat
  statTotal : Nat
  statCompleted : Nat
  statPending : Nat
  loadingShown : Bool
  previewShown : Bool
  previewHTML : String
deriving Repr, DecidableEq

/-- JS `String.prototype.trim`: strip leading and trailing whitespace.
Defined over the character list so that it computes by kernel reduction;
whitespace is restricted to ASCII whitespace (the inputs in play contain
only spaces). -/
def jsTrimList (l : List Char) : List Char :=
  ((l.dropWhile Char.isWhitespace).reverse.dropWhile Char.isWhitespace).reverse

/-- JS `text.trim()` on a string. -/
def jsTrim (s : String) : String := ⟨jsTrimList s.data⟩

/-- The `escapeHtml(text)` method writes `text` into a detached div's
`textContent` and reads back `innerHTML`.  Per the HTML serialization algorithm this
replaces, inside a text node, exactly the ampersand, less-than and
greater-than characters by their named references and touches nothing
else: this function gives that replacement for one character. -/
def escapeHtmlChar (c : Char) : List Char :=
  if c = '&' then ['&', 'a', 'm', 'p', ';']
  else if c = '<' then ['&', 'l', 't', ';']
  else if c = '>' then ['&', 'g', 't', ';']
  else [c]

/-- Character-list version of `escapeHtml`. -/
def escapeList : List Char → List Char
  | [] => []
  | c :: cs => escapeHtmlChar c ++ escapeList cs

/-- The `escapeHtml` method of `AITodoApp`. -/
def escapeHtml (s : String) : String := ⟨escapeList s.data⟩

/-- Modelled from the HTML standard (not from `src`): the browser's text
parser applied to serialized text, i.e. decoding of the character
references that `escapeHtml` emits.  Used only to state that escaped text
is displayed as the original literal text. -/
def unescapeList : List Char → List Char
  | '&' :: 'a' :: 'm' :: 'p' :: ';' :: rest => '&' :: unescapeList rest
  | '&' :: 'l' :: 't' :: ';' :: rest => '<' :: unescapeList rest
  | '&' :: 'g' :: 't' :: ';' :: rest => '>' :: unescapeList rest
  | c :: rest => c :: unescapeList rest
  | [] => []

/-- Entity decoding on strings. -/
def unescapeHtml (s : String) : String := ⟨unescapeList s.data⟩

/-- JS `Math.round`: round half toward positive infinity. -/
def roundJS (q : ℚ) : ℤ := Rat.floor (q + 1 / 2)

/-- The preview markup assembled in `showAIPreview` from a parsed result:
`<strong>${parsed.title}</strong>` plus optional date/time badges and an
optional confidence percentage.  None of the interpolated values is
escaped.  A string field is rendered only when truthy (present and
non-empty); the confidence only when truthy (present and non-zero). -/
def previewHTMLOf (parsed : ParsedTask) : String :=
  "<strong>" ++ parsed.title ++ "</strong>"
  ++ (match parsed.date with
      | some d =>
          if d = "" then ""
          else " <span class=\"badge bg-success\">" ++ d ++ "</span>"
      | none => "")
  ++ (match parsed.time with
      | some t =>
          if t = "" then ""
          else " <span class=\"badge bg-info\">" ++ t ++ "</span>"
      | none => "")
  ++ (match parsed.confidence with
      | some c =>
          if c = 0 then ""
          else " <small class=\"text-muted\">(" ++ toString (roundJS (c * 100))
               ++ "% confidence)</small>"
      | none => "")

/-- Part of the `createTaskHTML` template before `escapeHtml(task.title)`.
The template literal's inter-tag indentation whitespace is elided
throughout; all tags, attributes and interpolations are kept. -/
def taskHTMLPre (task : Task) : String :=
  "<div class=\"task-item " ++ (if task.completed then "completed" else "")
  ++ "\" data-task-id=\"" ++ toString task.id
  ++ "\"><div class=\"d-flex justify-content-between align-items-start\">"
  ++ "<div class=\"flex-grow-1\"><h6 class=\"task-title\">"

/-- Part of the `createTaskHTML` template between `escapeHtml(task.title)`
and `escapeHtml(task.original_text)`: the date/time badges (shown only
when truthy, interpolated without escaping) and the quote lead-in. -/
def taskHTMLMid (task : Task) : String :=
  "</h6><div class=\"task-meta\">"
  ++ (match task.date with
      | some d =>
          if d = "" then ""
          else "<span class=\"task-badge badge-date\">"
               ++ "<i class=\"fas fa-calendar me-1\"></i>" ++ d ++ "</span>"
      | none => "")
  ++ (match task.time with
      | some t =>
          if t = "" then ""
          else "<span class=\"task-badge badge-time\">"
               ++ "<i class=\"fas fa-clock me-1\"></i>" ++ t ++ "</span>"
      | none => "")
  ++ "</div><div class=\"task-original\">"
  ++ "<i class=\"fas fa-quote-left me-1\"></i>\""

/-- Part of the `createTaskHTML` template after
`escapeHtml(task.original_text)`: the toggle and delete buttons. -/
def taskHTMLPost (task : Task) : String :=
  "\"</div></div><div class=\"btn-group btn-group-sm ms-3\" role=\"group\">"
  ++ "<button type=\"button\" class=\"btn btn-outline-success toggle-btn\" data-task-id=\""
  ++ toString task.id ++ "\"><i class=\""
  ++ (if task.completed then "fas fa-check-circle" else "far fa-circle")
  ++ "\"></i></button>"
  ++ "<button type=\"button\" class=\"btn btn-outline-danger delete-btn\" data-task-id=\""
  ++ toString task.id ++ "\"><i class=\"fas fa-trash\"></i></button>"
  ++ "</div></div></div>"

/-- The `createTaskHTML` method: `escapeHtml` is applied to `task.title`
and `task.original_text` and to nothing else (`task.id`, `task.date`,
`task.time` are interpolated raw). -/
def createTaskHTML (task : Task) : String :=
  taskHTMLPre task ++ escapeHtml task.title ++ taskHTMLMid task
  ++ escapeHtml task.original_text ++ taskHTMLPost task

/-- The fallback markup `renderTasks` writes when the list is empty and
the page provides no `emptyState` element. -/
def emptyStateFallbackHTML : String :=
  "<div class=\"text-center py-4 text-muted\">No tasks yet. Add your first one above.</div>"

/-- Marker for the container's content after
`container.innerHTML = ''; container.appendChild(emptyState)`: the
container then holds exactly the page's `emptyState` element, whose
markup lives in the page, not in `app.js`. -/
def emptyStateElemHTML : String := "<div id=\"emptyState\"></div>"

/-- The `renderTasks` method: hide the `emptyState` element if it exists;
on an empty list show the empty-state placeholder (the element when
present, otherwise a fallback div); otherwise set the container to the
concatenation of `createTaskHTML` over the tasks, in stored order.
(`addTaskEventListeners` attaches handlers and changes no modelled
state.) -/
def renderTasksState (st : AppState) : AppState :=
  let st1 :=
    if st.hasEmptyStateElem then { st with emptyStateShown := false } else st
  if st1.tasks = [] then
    if st1.hasEmptyStateElem then
      { st1 with emptyStateShown := true, containerHTML := emptyStateElemHTML }
    else
      { st1 with containerHTML := emptyStateFallbackHTML }
  else
    { st1 with containerHTML := String.join (st1.tasks.map createTaskHTML) }

/-- The `updateStats` method: `total = tasks.length`,
`completed = tasks.filter(t => t.completed).length`,
`pending = total - completed`, written into the four stat elements. -/
def updateStatsState (st : AppState) : AppState :=
  let total := st.tasks.length
  let completed := (st.tasks.filter (fun t => t.completed)).length
  let pending := total - completed
  { st with statTaskCount := total, statTotal := total,
            statCompleted := completed, statPending := pending }

/-- The `loadTasks` method: `GET /api/tasks`; on a thrown error (transport
or JSON) show the danger alert; on a body with a truthy `tasks` field
replace `this.tasks` and re-run `renderTasks` and `updateStats`; on a
body without a truthy `tasks` field do nothing further. -/
def loadTasks (st : AppState) (resp : FetchOutcome TasksData) :
    AppState × List Event :=
  match resp with
  | .error _ =>
      (st, [.getTasksCall, .alert "Error loading tasks" "danger"])
  | .ok d =>
      match d.tasks with
      | none => (st, [.getTasksCall])
      | some ts =>
          (updateStatsState (renderTasksState { st with tasks := ts }),
           [.getTasksCall])

/-- The continuation of `showAIPreview` after its `await`s: apply one
arrived `/api/parse-task` response to the preview box, unconditionally.
On `success && parsed` show the assembled preview; otherwise (including a
thrown transport/JSON error, caught and logged) hide the preview. -/
def previewApply (st : AppState) (resp : FetchOutcome ParseData) : AppState :=
  match resp with
  | .error _ => { st with previewShown := false }
  | .ok d =>
      match d.parsed with
      | some parsed =>
          if d.success then
            { st with previewShown := true, previewHTML := previewHTMLOf parsed }
          else
            { st with previewShown := false }
      | none => { st with previewShown := false }

/-- One complete `showAIPreview(text)` run whose response is `resp`: for
empty or shorter-than-3 text, hide the preview and issue no request;
otherwise issue one parse request and apply its response. -/
def showAIPreview (st : AppState) (text : String) (resp : FetchOutcome ParseData) :
    AppState × List Event :=
  if text = "" ∨ text.length < 3 then
    ({ st with previewShown := false }, [])
  else
    (previewApply st resp, [.parseCall text])

/-- Stand-in for the browser's TypeError message thrown by
`parseData.parsed.title` when `parsed` is absent; the exact wording is
browser-dependent and plays no role in any claim. -/
def typeErrorParsedMsg : String :=
  "Cannot read properties of undefined (reading title)"

/-- The `addTask` method.  `parseResp`, `addResp`, `reloadResp` are the
outcomes of the up-to-three fetches it can perform; an outcome argument
is consulted only when the corresponding call appears in the event trace.
Control flow mirrors the source: empty trimmed input fails fast with a
warning and no loading toggle; otherwise `showLoading(true)`, the parse
call, then either an abort into the `catch` (danger alert) or the create
call, then on `success` clear the input, hide the preview, start
`loadTasks` (not awaited in the source; its fetch is issued and, having
no later synchronous step racing it, its response handling is placed here
in the trace) and show the success alert; the `finally` always runs
`showLoading(false)`. -/
def addTask (st : AppState) (parseResp : FetchOutcome ParseData)
    (addResp : FetchOutcome SimpleResp) (reloadResp : FetchOutcome TasksData) :
    AppState × List Event :=
  let text := jsTrim st.inputValue
  if text = "" then
    (st, [.alert "Please enter a task" "warning"])
  else
    let st1 := { st with loadingShown := true }
    match parseResp with
    | .error m =>
        ({ st1 with loadingShown := false },
         [.setLoading true, .parseCall text,
          .alert ("Error adding task: " ++ m) "danger", .setLoading false])
    | .ok parseData =>
        if parseData.success = false then
          ({ st1 with loadingShown := false },
           [.setLoading true, .parseCall text,
            .alert ("Error adding task: "
                    ++ parseData.error.getD "Failed to parse task") "danger",
            .setLoading false])
        else
          match parseData.parsed with
          | none =>
              ({ st1 with loadingShown := false },
               [.setLoading true, .parseCall text,
                .alert ("Error adding task: " ++ typeErrorParsedMsg) "danger",
                .setLoading false])
          | some parsed =>
              let createEv :=
                Event.createCall parsed.title parsed.date parsed.time text
              match addResp with
              | .error m =>
                  ({ st1 with loadingShown := false },
                   [.setLoading true, .parseCall text, createEv,
                    .alert ("Error adding task: " ++ m) "danger",
                    .setLoading false])
              | .ok addData =>
                  if addData.success then
                    let st2 := { st1 with inputValue := "", previewShown := false }
                    let reload := loadTasks st2 reloadResp
                    ({ reload.1 with loadingShown := false },
                     [.setLoading true, .parseCall text, createEv] ++ reload.2
                      ++ [.alert "Task added successfully!" "success",
                          .setLoading false])
                  else
                    ({ st1 with loadingShown := false },
                     [.setLoading true, .parseCall text, createEv,
                      .alert ("Error adding task: "
                              ++ addData.error.getD "Failed to add task") "danger",
                      .setLoading false])

/-- The `toggleTask(taskId)` method: `POST /api/tasks/{id}/toggle`; on
`success` reload (the un-awaited `loadTasks` handled as in `addTask`);
otherwise the thrown error is caught and a fixed danger alert shown.  No
loading-indicator toggle appears anywhere in this method. -/
def toggleTask (st : AppState) (taskId : Int) (resp : FetchOutcome SimpleResp)
    (reloadResp : FetchOutcome TasksData) : AppState × List Event :=
  match resp with
  | .error _ =>
      (st, [.toggleCall taskId, .alert "Error updating task" "danger"])
  | .ok d =>
      if d.success then
        let reload := loadTasks st reloadResp
        (reload.1, .toggleCall taskId :: reload.2)
      else
        (st, [.toggleCall taskId, .alert "Error updating task" "danger"])

/-- The `deleteTask(taskId)` method: `DELETE /api/tasks/{id}`; on
`success` reload and show the success alert; otherwise the thrown error
is caught and a fixed danger alert shown.  No loading-indicator toggle
appears anywhere in this method. -/
def deleteTask (st : AppState) (taskId : Int) (resp : FetchOutcome SimpleResp)
    (reloadResp : FetchOutcome TasksData) : AppState × List Event :=
  match resp with
  | .error _ =>
      (st, [.deleteCall taskId, .alert "Error deleting task" "danger"])
  | .ok d =>
      if d.success then
        let reload := loadTasks st reloadResp
        (reload.1,
         .deleteCall taskId :: reload.2
          ++ [.alert "Task deleted successfully!" "success"])
      else
        (st, [.deleteCall taskId, .alert "Error deleting task" "danger"])

/-- Is this event a service call (network request)? -/
def Event.isNetworkCall : Event → Bool
  | .parseCall _ => true
  | .createCall _ _ _ _ => true
  | .getTasksCall => true
  | .toggleCall _ => true
  | .deleteCall _ => true
  | _ => false

/-- Is this event a `POST /api/tasks` create call? -/
def Event.isCreateCall : Event → Bool
  | .createCall _ _ _ _ => true
  | _ => false

/-- Is this event a loading-indicator toggle? -/
def Event.isSetLoading : Event → Bool
  | .setLoading _ => true
  | _ => false

/-- Final preview state after the in-flight `showAIPreview` continuations
run, in response-arrival order.  The source keeps no request token, so
each continuation applies its own response unconditionally, whenever it
arrives; with several requests in flight the preview box ends up as the
fold of `previewApply` over the responses in arrival order. -/
def previewArrivals (st : AppState) (resps : List (FetchOutcome ParseData)) :
    AppState :=
  resps.foldl previewApply st

/-- A concrete app state used to instantiate theorems: empty task list,
empty input, no `emptyState` element in the page. -/
def sampleState : AppState :=
  { tasks := [], inputValue := "", containerHTML := "", emptyStateShown := false,
    hasEmptyStateElem := false, statTaskCount := 0, statTotal := 0,
    statCompleted := 0, statPending := 0, loadingShown := false,
    previewShown := false, previewHTML := "" }

/-- A state whose input box holds valid (non-empty after trimming) text. -/
def filledState : AppState := { sampleState with inputValue := "call mom tomorrow" }

/-- A state whose input box holds only whitespace. -/
def whitespaceState : AppState := { sampleState with inputValue := "   " }

/-- Input state for the verbatim-text counterexample: the user typed
`" x "`, a task text surrounded by spaces. -/
def paddedInputState : AppState := { sampleState with inputValue := " x " }

/-- A successful parse response for that padded input. -/
def paddedParse : ParseData :=
  { success := true,
    parsed := some { title := "t", date := none, time := none, confidence := none },
    error := none }

/-- A successful mutation response. -/
def okSimple : SimpleResp := { success := true, error := none }

/-- A failed mutation response. -/
def failSimple : SimpleResp := { success := false, error := some "boom" }

/-- A successful, empty list-reload response. -/
def okTasks : FetchOutcome TasksData := .ok { tasks := some [] }

/-- A successful parse response with a full parsed object. -/
def goodParse : ParseData :=
  { success := true,
    parsed := some { title := "call mom", date := some "tomorrow", time := none,
                     confidence := none },
    error := none }

/-- A failed parse response. -/
def badParse : ParseData :=
  { success := false, parsed := none, error := some "cannot parse" }

/-- Interpretation result for the earlier preview request A. -/
def parsedOfA : ParsedTask :=
  { title := "result for request A", date := none, time := none, confidence := none }

/-- Interpretation result for the later preview request B. -/
def parsedOfB : ParsedTask :=
  { title := "result for request B", date := none, time := none, confidence := none }

/-- Response carrying A's result. -/
def respOfA : FetchOutcome ParseData :=
  .ok { success := true, parsed := some parsedOfA, error := none }

/-- Response carrying B's result. -/
def respOfB : FetchOutcome ParseData :=
  .ok { success := true, parsed := some parsedOfB, error := none }

/-- A parse result whose title is markup. -/
def markupParsed : ParsedTask :=
  { title := "<script>alert(1)</script>", date := none, time := none,
    confidence := none }

/-- A task whose `date` field is markup. -/
def markupDateTask : Task :=
  { id := 1, title := "safe", date := some "<img src=x>", time := none,
    original_text := "safe", completed := false }

/-- Helper: the last element of a list ending in an explicit pair. -/
theorem getLastq_cons_append_pair {α : Type} (a x y : α) (L : List α) :
    (a :: (L ++ [x, y])).getLast? = some y := by
  rw [show a :: (L ++ [x, y]) = (a :: L) ++ [x, y] from rfl, List.getLast?_append]
  simp

/-- Helper: `loadTasks` always issues exactly its reload request, and its
trace never contains a create call or a loading-indicator toggle. -/
theorem loadTasks_trace_shape (st : AppState) (rr : FetchOutcome TasksData) :
    Event.getTasksCall ∈ (loadTasks st rr).2
    ∧ (loadTasks st rr).2.filter Event.isCreateCall = []
    ∧ (loadTasks st rr).2.filter Event.isSetLoading = [] := by
  rcases rr with m | ⟨_ | ts⟩ <;>
    simp [loadTasks, Event.isCreateCall, Event.isSetLoading]

/-- Helper: `loadTasks` never touches the loading indicator, the input
box, or the preview box. -/
theorem loadTasks_untouched_fields (st : AppState) (rr : FetchOutcome TasksData) :
    (loadTasks st rr).1.loadingShown = st.loadingShown
    ∧ (loadTasks st rr).1.inputValue = st.inputValue
    ∧ (loadTasks st rr).1.previewShown = st.previewShown := by
  rcases rr with m | ⟨_ | ts⟩ <;>
    simp [loadTasks, updateStatsState, renderTasksState, apply_ite]

/-- Helper: decoding after escaping starts over any non-ampersand head. -/
theorem unescapeList_cons_of_ne (c : Char) (r : List Char) (h : ¬ c = '&') :
    unescapeList (c :: r) = c :: unescapeList r := by
  conv_lhs => rw [unescapeList.eq_def]
  split <;> simp_all

/-- Helper: entity decoding inverts `escapeHtml` on character lists. -/
theorem unescapeList_escapeList (l : List Char) :
    unescapeList (escapeList l) = l := by
  induction l with
  | nil => rfl
  | cons c cs ih =>
    by_cases h1 : c = '&'
    · subst h1; simpa [escapeList, escapeHtmlChar, unescapeList] using ih
    · by_cases h2 : c = '<'
      · subst h2; simpa [escapeList, escapeHtmlChar, unescapeList] using ih
      · by_cases h3 : c = '>'
        · subst h3; simpa [escapeList, escapeHtmlChar, unescapeList] using ih
        · have he : escapeHtmlChar c = [c] := by simp [escapeHtmlChar, h1, h2, h3]
          rw [escapeList, he, List.singleton_append,
              unescapeList_cons_of_ne c _ h1, ih]

/-- Helper: escaped text contains no angle bracket, so it can open or
close no tag. -/
theorem escapeList_no_angles (l : List Char) :
    ¬ '<' ∈ escapeList l ∧ ¬ '>' ∈ escapeList l := by
  induction l with
  | nil => simp [escapeList]
  | cons c cs ih =>
    by_cases h1 : c = '&'
    · subst h1; simp [escapeList, escapeHtmlChar, ih.1, ih.2]
    · by_cases h2 : c = '<'
      · subst h2; simp [escapeList, escapeHtmlChar, ih.1, ih.2]
      · by_cases h3 : c = '>'
        · subst h3; simp [escapeList, escapeHtmlChar, ih.1, ih.2]
        · simp [escapeList, escapeHtmlChar, h1, h2, h3, ih.1, ih.2]
          exact ⟨fun hc => h2 hc.symm, fun hc => h3 hc.symm⟩


/-- C1 counterexample: previews are requested for input A and then input
B; B's response arrives first and A's stale response arrives last.  The
final shown preview is A's result, which differs from B's, and the
preview is shown — the response to the superseded request is applied, not
discarded, refuting the claim that the final preview reflects B's result
and never A's. -/
theorem preview_stale_response_applied :
    (previewArrivals sampleState [respOfB, respOfA]).previewHTML
      = previewHTMLOf parsedOfA
    ∧ (previewArrivals sampleState [respOfB, respOfA]).previewShown = true
    ∧ (previewHTMLOf parsedOfA == previewHTMLOf parsedOfB) = false := by decide

/-- C1 (amended): `showAIPreview` keeps no request token and applies
every arriving response unconditionally, so after any sequence of
arrivals the shown preview reflects whichever response arrived last — the
last-arriving confident response wins, whether or not it belongs to the
most recently issued request. -/
theorem preview_last_arrival_wins (st : AppState)
    (rs : List (FetchOutcome ParseData)) (d : ParseData) (parsed : ParsedTask)
    (h : d.success = true) (h2 : d.parsed = some parsed) :
    (previewArrivals st (rs ++ [.ok d])).previewHTML = previewHTMLOf parsed
    ∧ (previewArrivals st (rs ++ [.ok d])).previewShown = true := by
  constructor <;> simp [previewArrivals, List.foldl_append, previewApply, h, h2]

/-- C1 witness: instantiating the amended statement on the concrete
out-of-order schedule of the counterexample. -/
theorem preview_last_arrival_wins_witness :
    (previewArrivals sampleState
        ([respOfB] ++ [.ok { success := true, parsed := some parsedOfA,
                             error := none }])).previewHTML
      = previewHTMLOf parsedOfA
    ∧ (previewArrivals sampleState
        ([respOfB] ++ [.ok { success := true, parsed := some parsedOfA,
                             error := none }])).previewShown = true :=
  preview_last_arrival_wins sampleState [respOfB]
    { success := true, parsed := some parsedOfA, error := none } parsedOfA rfl rfl

/-- C2 counterexample: a successful Toggle and a successful Delete whose
traces contain no loading-indicator event at all — Toggle and Delete
never engage the shared busy indicator, refuting the claim that every one
of the three mutation operations sets it at its start. -/
theorem toggle_delete_never_set_busy :
    (toggleTask sampleState 1 (.ok { success := true, error := none })
        (.ok { tasks := some [] })).2.filter Event.isSetLoading = []
    ∧ (deleteTask sampleState 1 (.ok { success := true, error := none })
        (.ok { tasks := some [] })).2.filter Event.isSetLoading = [] := by decide

/-- C2 (amended): only Create manages the busy indicator: for valid input
`addTask`'s trace begins with `setLoading true`, ends with
`setLoading false` on every exit path (parse failure, transport failure,
persistence failure, success), and leaves the indicator off; `toggleTask`
and `deleteTask` never touch the indicator on any path. -/
theorem busy_indicator_amended (st : AppState) (taskId : Int)
    (pr : FetchOutcome ParseData) (ar : FetchOutcome SimpleResp)
    (tr dr : FetchOutcome SimpleResp) (rr : FetchOutcome TasksData)
    (h : jsTrim st.inputValue ≠ "") :
    ((addTask st pr ar rr).2.head? = some (.setLoading true)
      ∧ (addTask st pr ar rr).2.getLast? = some (.setLoading false)
      ∧ (addTask st pr ar rr).1.loadingShown = false)
    ∧ ((toggleTask st taskId tr rr).2.filter Event.isSetLoading = []
      ∧ (toggleTask st taskId tr rr).1.loadingShown = st.loadingShown)
    ∧ ((deleteTask st taskId dr rr).2.filter Event.isSetLoading = []
      ∧ (deleteTask st taskId dr rr).1.loadingShown = st.loadingShown) := by
  refine ⟨?_, ?_, ?_⟩
  · rcases pr with m | pd
    · simp [addTask, h]
    · rcases hs : pd.success with _ | _
      · simp [addTask, h, hs]
      · rcases hp : pd.parsed with _ | parsed
        · simp [addTask, h, hs, hp]
        · rcases ar with m2 | ad
          · simp [addTask, h, hs, hp]
          · rcases ha : ad.success with _ | _
            · simp [addTask, h, hs, hp, ha]
            · simp [addTask, h, hs, hp, ha, getLastq_cons_append_pair]
  · rcases tr with m | d
    · simp [toggleTask, Event.isSetLoading]
    · rcases hd : d.success with _ | _
      · simp [toggleTask, hd, Event.isSetLoading]
      · have h1 := loadTasks_trace_shape st rr
        have h2 := loadTasks_untouched_fields st rr
        simp [toggleTask, hd, Event.isSetLoading, h1.2.2, h2.1]
  · rcases dr with m | d
    · simp [deleteTask, Event.isSetLoading]
    · rcases hd : d.success with _ | _
      · simp [deleteTask, hd, Event.isSetLoading]
      · have h1 := loadTasks_trace_shape st rr
        have h2 := loadTasks_untouched_fields st rr
        simp [deleteTask, hd, Event.isSetLoading, h1.2.2, h2.1]

/-- C2 witness: the amended statement at a concrete state with valid
input, a failing parse for Create, and successful Toggle and Delete. -/
theorem busy_indicator_amended_witness :
    ((addTask filledState (.error "network down") (.ok okSimple) okTasks).2.head?
        = some (.setLoading true)
      ∧ (addTask filledState (.error "network down") (.ok okSimple) okTasks).2.getLast?
        = some (.setLoading false)
      ∧ (addTask filledState (.error "network down") (.ok okSimple) okTasks).1.loadingShown
        = false)
    ∧ ((toggleTask filledState 1 (.ok okSimple) okTasks).2.filter Event.isSetLoading = []
      ∧ (toggleTask filledState 1 (.ok okSimple) okTasks).1.loadingShown
        = filledState.loadingShown)
    ∧ ((deleteTask filledState 1 (.ok okSimple) okTasks).2.filter Event.isSetLoading = []
      ∧ (deleteTask filledState 1 (.ok okSimple) okTasks).1.loadingShown
        = filledState.loadingShown) :=
  busy_indicator_amended filledState 1 (.error "network down") (.ok okSimple)
    (.ok okSimple) (.ok okSimple) okTasks (by decide)


/-- C3 counterexample: with the input `" x "` (accepted by Create), the
create call carries `original_text = "x"`, the trimmed text, which is not
the verbatim user input — refuting the claim that `original_text` equals
the full input string. -/
theorem addTask_original_text_not_verbatim :
    (addTask paddedInputState (.ok paddedParse) (.ok { success := true, error := none })
        (.ok { tasks := some [] })).2.filter Event.isCreateCall
      = [.createCall "t" none none "x"]
    ∧ paddedInputState.inputValue = " x "
    ∧ ((" x " : String) == "x") = false := by decide

/-- C3 (amended): for every accepted input, the `original_text` field
sent to the persistence create call equals the trimmed user input
(`taskInput.value.trim()`), not the verbatim input. -/
theorem addTask_sends_trimmed_input (st : AppState) (pd : ParseData)
    (parsed : ParsedTask) (ar : FetchOutcome SimpleResp) (rr : FetchOutcome TasksData)
    (h : jsTrim st.inputValue ≠ "") (hs : pd.success = true)
    (hp : pd.parsed = some parsed) :
    (addTask st (.ok pd) ar rr).2.filter Event.isCreateCall
      = [.createCall parsed.title parsed.date parsed.time (jsTrim st.inputValue)] := by
  rcases ar with m | ad
  · simp [addTask, h, hs, hp, Event.isCreateCall]
  · rcases ha : ad.success with _ | _
    · simp [addTask, h, hs, hp, ha, Event.isCreateCall]
    · have h1 := loadTasks_trace_shape
        { st with loadingShown := true, inputValue := "", previewShown := false } rr
      simp [addTask, h, hs, hp, ha, Event.isCreateCall, h1.2.1]

/-- C3 witness: the amended statement on the padded-input state. -/
theorem addTask_sends_trimmed_input_witness :
    (addTask paddedInputState (.ok paddedParse) (.ok okSimple) okTasks).2.filter
        Event.isCreateCall
      = [.createCall "t" none none (jsTrim paddedInputState.inputValue)] :=
  addTask_sends_trimmed_input paddedInputState paddedParse
    { title := "t", date := none, time := none, confidence := none }
    (.ok okSimple) okTasks (by decide) rfl rfl

/-- C4: the task-list renderer embeds `title` and `original_text` only
through `escapeHtml`; escaped text contains no angle bracket (so it can
never open a tag and is never interpreted as live markup), and the
browser's entity decoding recovers exactly the original text (so the
field is displayed as literal text). -/
theorem createTaskHTML_escapes_task_text (task : Task) :
    createTaskHTML task
      = taskHTMLPre task ++ escapeHtml task.title ++ taskHTMLMid task
        ++ escapeHtml task.original_text ++ taskHTMLPost task
    ∧ (∀ s : String, ¬ '<' ∈ (escapeHtml s).data ∧ ¬ '>' ∈ (escapeHtml s).data)
    ∧ (∀ s : String, unescapeHtml (escapeHtml s) = s) := by
  refine ⟨rfl, fun s => escapeList_no_angles s.data, fun s => ?_⟩
  show (⟨unescapeList (escapeList s.data)⟩ : String) = s
  rw [unescapeList_escapeList]

/-- C5: for valid input, a parse failure (transport error or
`success:false`) aborts Create before any persistence call — the trace
contains no create call, the task list is untouched, and a danger alert
surfaces the failure; when parse and persistence both succeed the trace
contains exactly one create call followed by a reload request; when the
persistence step fails there is still exactly one create call, the task
list is untouched and a danger alert is shown. -/
theorem addTask_parse_gate (st : AppState) (m : String) (pd : ParseData)
    (parsed : ParsedTask) (ad : SimpleResp) (ar : FetchOutcome SimpleResp)
    (rr : FetchOutcome TasksData) (h : jsTrim st.inputValue ≠ "") :
    ((addTask st (.error m) ar rr).2.filter Event.isCreateCall = []
      ∧ (addTask st (.error m) ar rr).1.tasks = st.tasks
      ∧ Event.alert ("Error adding task: " ++ m) "danger"
          ∈ (addTask st (.error m) ar rr).2)
    ∧ (pd.success = false →
        (addTask st (.ok pd) ar rr).2.filter Event.isCreateCall = []
        ∧ (addTask st (.ok pd) ar rr).1.tasks = st.tasks
        ∧ Event.alert ("Error adding task: " ++ pd.error.getD "Failed to parse task")
            "danger" ∈ (addTask st (.ok pd) ar rr).2)
    ∧ (pd.success = true → pd.parsed = some parsed → ad.success = true →
        (addTask st (.ok pd) (.ok ad) rr).2.filter Event.isCreateCall
          = [.createCall parsed.title parsed.date parsed.time (jsTrim st.inputValue)]
        ∧ Event.getTasksCall ∈ (addTask st (.ok pd) (.ok ad) rr).2)
    ∧ (pd.success = true → pd.parsed = some parsed → ad.success = false →
        (addTask st (.ok pd) (.ok ad) rr).2.filter Event.isCreateCall
          = [.createCall parsed.title parsed.date parsed.time (jsTrim st.inputValue)]
        ∧ (addTask st (.ok pd) (.ok ad) rr).1.tasks = st.tasks
        ∧ Event.alert ("Error adding task: " ++ ad.error.getD "Failed to add task")
            "danger" ∈ (addTask st (.ok pd) (.ok ad) rr).2) := by
  refine ⟨?_, ?_, ?_, ?_⟩
  · simp [addTask, h, Event.isCreateCall]
  · intro hs
    simp [addTask, h, hs, Event.isCreateCall]
  · intro hs hp ha
    have h1 := loadTasks_trace_shape
      { st with loadingShown := true, inputValue := "", previewShown := false } rr
    simp [addTask, h, hs, hp, ha, Event.isCreateCall, h1.2.1, h1.1]
  · intro hs hp ha
    simp [addTask, h, hs, hp, ha, Event.isCreateCall]

/-- C5 witness: the statement at concrete inputs — a transport-failed
parse, a `success:false` parse, a fully successful Create, and a Create
whose persistence step fails. -/
theorem addTask_parse_gate_witness :
    ((addTask filledState (.error "network down") (.ok okSimple) okTasks).2.filter
        Event.isCreateCall = []
      ∧ (addTask filledState (.error "network down") (.ok okSimple) okTasks).1.tasks
        = filledState.tasks
      ∧ Event.alert ("Error adding task: " ++ "network down") "danger"
          ∈ (addTask filledState (.error "network down") (.ok okSimple) okTasks).2)
    ∧ ((addTask filledState (.ok badParse) (.ok okSimple) okTasks).2.filter
          Event.isCreateCall = []
      ∧ (addTask filledState (.ok badParse) (.ok okSimple) okTasks).1.tasks
        = filledState.tasks
      ∧ Event.alert ("Error adding task: " ++ badParse.error.getD "Failed to parse task")
          "danger" ∈ (addTask filledState (.ok badParse) (.ok okSimple) okTasks).2)
    ∧ ((addTask filledState (.ok goodParse) (.ok okSimple) okTasks).2.filter
          Event.isCreateCall
        = [.createCall "call mom" (some "tomorrow") none (jsTrim filledState.inputValue)]
      ∧ Event.getTasksCall ∈ (addTask filledState (.ok goodParse) (.ok okSimple) okTasks).2)
    ∧ ((addTask filledState (.ok goodParse) (.ok failSimple) okTasks).2.filter
          Event.isCreateCall
        = [.createCall "call mom" (some "tomorrow") none (jsTrim filledState.inputValue)]
      ∧ (addTask filledState (.ok goodParse) (.ok failSimple) okTasks).1.tasks
        = filledState.tasks
      ∧ Event.alert ("Error adding task: " ++ failSimple.error.getD "Failed to add task")
          "danger" ∈ (addTask filledState (.ok goodParse) (.ok failSimple) okTasks).2) :=
  ⟨(addTask_parse_gate filledState "network down" badParse
      { title := "call mom", date := some "tomorrow", time := none, confidence := none }
      okSimple (.ok okSimple) okTasks (by decide)).1,
   (addTask_parse_gate filledState "network down" badParse
      { title := "call mom", date := some "tomorrow", time := none, confidence := none }
      okSimple (.ok okSimple) okTasks (by decide)).2.1 rfl,
   (addTask_parse_gate filledState "network down" goodParse
      { title := "call mom", date := some "tomorrow", time := none, confidence := none }
      okSimple (.ok okSimple) okTasks (by decide)).2.2.1 rfl rfl rfl,
   (addTask_parse_gate filledState "network down" goodParse
      { title := "call mom", date := some "tomorrow", time := none, confidence := none }
      failSimple (.ok okSimple) okTasks (by decide)).2.2.2 rfl rfl rfl⟩


/-- C6: Toggle and Delete leave the whole displayed state (task list,
container markup, counters) exactly unchanged on any failure — transport
error or `success:false` — showing only a danger alert, and on success
change state only by handing it to the full `loadTasks` reload. -/
theorem toggle_delete_reload_only (st : AppState) (taskId : Int) (m : String)
    (d : SimpleResp) (rr : FetchOutcome TasksData) :
    (toggleTask st taskId (.error m) rr
       = (st, [.toggleCall taskId, .alert "Error updating task" "danger"]))
    ∧ (d.success = false →
        toggleTask st taskId (.ok d) rr
          = (st, [.toggleCall taskId, .alert "Error updating task" "danger"]))
    ∧ (d.success = true →
        toggleTask st taskId (.ok d) rr
          = ((loadTasks st rr).1, .toggleCall taskId :: (loadTasks st rr).2))
    ∧ (deleteTask st taskId (.error m) rr
       = (st, [.deleteCall taskId, .alert "Error deleting task" "danger"]))
    ∧ (d.success = false →
        deleteTask st taskId (.ok d) rr
          = (st, [.deleteCall taskId, .alert "Error deleting task" "danger"]))
    ∧ (d.success = true →
        deleteTask st taskId (.ok d) rr
          = ((loadTasks st rr).1,
             .deleteCall taskId :: (loadTasks st rr).2
               ++ [.alert "Task deleted successfully!" "success"])) := by
  refine ⟨rfl, ?_, ?_, rfl, ?_, ?_⟩ <;> intro h <;> simp [toggleTask, deleteTask, h]

/-- C6 witness: the statement at a concrete state for a transport-failed,
a `success:false`, and a successful Toggle and Delete. -/
theorem toggle_delete_reload_only_witness :
    (toggleTask sampleState 1 (.error "down") okTasks
       = (sampleState, [.toggleCall 1, .alert "Error updating task" "danger"]))
    ∧ (toggleTask sampleState 1 (.ok failSimple) okTasks
       = (sampleState, [.toggleCall 1, .alert "Error updating task" "danger"]))
    ∧ (toggleTask sampleState 1 (.ok okSimple) okTasks
       = ((loadTasks sampleState okTasks).1,
          .toggleCall 1 :: (loadTasks sampleState okTasks).2))
    ∧ (deleteTask sampleState 1 (.error "down") okTasks
       = (sampleState, [.deleteCall 1, .alert "Error deleting task" "danger"]))
    ∧ (deleteTask sampleState 1 (.ok failSimple) okTasks
       = (sampleState, [.deleteCall 1, .alert "Error deleting task" "danger"]))
    ∧ (deleteTask sampleState 1 (.ok okSimple) okTasks
       = ((loadTasks sampleState okTasks).1,
          .deleteCall 1 :: (loadTasks sampleState okTasks).2
            ++ [.alert "Task deleted successfully!" "success"])) :=
  ⟨(toggle_delete_reload_only sampleState 1 "down" failSimple okTasks).1,
   (toggle_delete_reload_only sampleState 1 "down" failSimple okTasks).2.1 rfl,
   (toggle_delete_reload_only sampleState 1 "down" okSimple okTasks).2.2.1 rfl,
   (toggle_delete_reload_only sampleState 1 "down" failSimple okTasks).2.2.2.1,
   (toggle_delete_reload_only sampleState 1 "down" failSimple okTasks).2.2.2.2.1 rfl,
   (toggle_delete_reload_only sampleState 1 "down" okSimple okTasks).2.2.2.2.2 rfl⟩

/-- C7: when the trimmed input is empty, Create returns immediately with
only a warning-level alert: the state (hence the Task Store) is exactly
unchanged and the trace contains no network call of any kind. -/
theorem addTask_empty_input (st : AppState) (pr : FetchOutcome ParseData)
    (ar : FetchOutcome SimpleResp) (rr : FetchOutcome TasksData)
    (h : jsTrim st.inputValue = "") :
    addTask st pr ar rr = (st, [.alert "Please enter a task" "warning"])
    ∧ ((addTask st pr ar rr).2.filter Event.isNetworkCall) = [] := by
  constructor <;> simp [addTask, h, Event.isNetworkCall]

/-- C7 witness: the statement on a whitespace-only input box. -/
theorem addTask_empty_input_witness :
    addTask whitespaceState (.error "down") (.ok okSimple) okTasks
      = (whitespaceState, [.alert "Please enter a task" "warning"])
    ∧ ((addTask whitespaceState (.error "down") (.ok okSimple) okTasks).2.filter
        Event.isNetworkCall) = [] :=
  addTask_empty_input whitespaceState (.error "down") (.ok okSimple) okTasks (by decide)

/-- C8: after `updateStats` the displayed counters satisfy
`total = completed + pending` for every task collection (completed being
the count of tasks with `completed` true), and rendering the empty
collection puts the empty-state placeholder — the page's `emptyState`
element or the fallback div — in the container instead of a task list. -/
theorem stats_invariant_and_empty_placeholder (st : AppState) :
    (updateStatsState st).statTotal
      = (updateStatsState st).statCompleted + (updateStatsState st).statPending
    ∧ (st.tasks = [] →
        (renderTasksState st).containerHTML = emptyStateElemHTML
        ∨ (renderTasksState st).containerHTML = emptyStateFallbackHTML) := by
  constructor
  · have h := List.length_filter_le (fun t => t.completed) st.tasks
    simp [updateStatsState]
    omega
  · intro h
    by_cases he : st.hasEmptyStateElem <;> simp [renderTasksState, h, he]

/-- C8 witness: the statement on the concrete empty collection. -/
theorem stats_invariant_witness :
    ((updateStatsState sampleState).statTotal
      = (updateStatsState sampleState).statCompleted
        + (updateStatsState sampleState).statPending)
    ∧ ((renderTasksState sampleState).containerHTML = emptyStateElemHTML
        ∨ (renderTasksState sampleState).containerHTML = emptyStateFallbackHTML) :=
  ⟨(stats_invariant_and_empty_placeholder sampleState).1,
   (stats_invariant_and_empty_placeholder sampleState).2 rfl⟩

set_option maxRecDepth 8192 in
/-- C9: escaping is applied only to `title` and `original_text`.  The
preview renderer interpolates the service-returned title raw, so a markup
title appears verbatim inside the preview markup; the task-list renderer
interpolates `task.date` raw, so a markup date value appears verbatim in
the produced HTML — live markup, unlike what `escapeHtml` would have
produced for the same values. -/
theorem unescaped_fields_render_live_markup :
    previewHTMLOf markupParsed = "<strong><script>alert(1)</script></strong>"
    ∧ (∃ pre post, createTaskHTML markupDateTask = pre ++ "<img src=x>" ++ post)
    ∧ (escapeHtml "<script>alert(1)</script>" == "<script>alert(1)</script>") = false
    ∧ (escapeHtml "<img src=x>" == "<img src=x>") = false := by
  refine ⟨by decide,
    ⟨taskHTMLPre markupDateTask ++ escapeHtml "safe"
       ++ "</h6><div class=\"task-meta\"><span class=\"task-badge badge-date\"><i class=\"fas fa-calendar me-1\"></i>",
     "</span></div><div class=\"task-original\"><i class=\"fas fa-quote-left me-1\"></i>\""
       ++ escapeHtml "safe" ++ taskHTMLPost markupDateTask, by decide⟩,
    by decide, by decide⟩

/-- C10: a failed list reload (transport or JSON error) leaves the entire
state — Task Store, rendered list, counters — exactly unchanged and shows
the danger notice; a well-formed response without a truthy `tasks` field
changes nothing and shows nothing; only a truthy `tasks` field replaces
the store and re-renders, with no alert. -/
theorem loadTasks_failure_frame (st : AppState) (m : String) (ts : List Task) :
    loadTasks st (.error m)
      = (st, [.getTasksCall, .alert "Error loading tasks" "danger"])
    ∧ loadTasks st (.ok ⟨none⟩) = (st, [.getTasksCall])
    ∧ loadTasks st (.ok ⟨some ts⟩)
      = (updateStatsState (renderTasksState { st with tasks := ts }),
         [.getTasksCall]) := ⟨rfl, rfl, rfl⟩

end AITodo
